import Mathlib

/-!
Verification development for the space-ai-alert service.

This file gives a shallow embedding of the parts of `src/api/app.py` and
`src/api/main.py` that the checked properties concern: the localization
table and its lookup `t`, the great-circle distance `calculate_distance`,
the remote-generation cascade `call_ai_api`, the inline risk engine of the
`/alert/` endpoint (`get_alert`), the rule-based fallback generator
`generate_smart_recommendation`, and the older orchestrator
`get_ai_alert` of `main.py`.

External HTTP calls are modelled by oracles: each already-parsed adapter
result (or its failure marker) is an explicit input, so the embedded
orchestrators are functions of those inputs.  Python floats are modelled
as rationals where the code only compares and copies them, and as real
numbers for the trigonometric distance function.
-/

namespace App

/-! ### Localization table (TRANSLATIONS and `t` in app.py) -/

/-- The German table of `TRANSLATIONS` (the designated default language). -/
def deTable : List (String × String) :=
  [ ("good_day", "Guten Tag"),
    ("air_quality", "Luftqualität"),
    ("good", "Gut"),
    ("moderate", "Mässig"),
    ("poor", "Schlecht"),
    ("excellent", "Ausgezeichnet"),
    ("enjoy_day", "Geniessen Sie den Tag!"),
    ("perfect_outdoor", "Perfekt für Outdoor-Aktivitäten"),
    ("sunscreen_needed", "Sonnencreme empfohlen"),
    ("avoid_sun", "Mittagssonne meiden, SPF 50+"),
    ("warm_clothes", "Warme Kleidung empfohlen"),
    ("stay_hydrated", "Viel trinken!"),
    ("pollen_high", "Hohe Pollenbelastung"),
    ("wildfire_warning", "Waldbrände in der Nähe"),
    ("earthquake_warning", "Erdbeben in der Nähe"),
    ("lightning_warning", "Gewitter/Blitze aktiv"),
    ("aurora_possible", "Nordlichter möglich"),
    ("aurora_unlikely", "Nordlichter unwahrscheinlich"),
    ("cme_warning", "Sonnensturm (CME) unterwegs"),
    ("radiation_warning", "Erhöhte Strahlung"),
    ("hf_radio_disruption", "HF-Funk möglicherweise gestört"),
    ("gps_issues", "GPS-Genauigkeit reduziert"),
    ("Clear", "Klar"),
    ("Partly cloudy", "Teilweise bewölkt"),
    ("Overcast", "Bewölkt"),
    ("Fog", "Nebel"),
    ("Drizzle", "Nieselregen"),
    ("Rain", "Regen"),
    ("Heavy rain", "Starkregen"),
    ("Snow", "Schnee"),
    ("Heavy snow", "Starker Schneefall"),
    ("Showers", "Schauer"),
    ("Thunderstorm", "Gewitter") ]

/-- The English table of `TRANSLATIONS`. -/
def enTable : List (String × String) :=
  [ ("good_day", "Hello"),
    ("air_quality", "Air quality"),
    ("good", "Good"),
    ("moderate", "Moderate"),
    ("poor", "Poor"),
    ("excellent", "Excellent"),
    ("enjoy_day", "Enjoy your day!"),
    ("perfect_outdoor", "Perfect for outdoor activities"),
    ("sunscreen_needed", "Sunscreen recommended"),
    ("avoid_sun", "Avoid midday sun, use SPF 50+"),
    ("warm_clothes", "Warm clothes recommended"),
    ("stay_hydrated", "Stay hydrated!"),
    ("pollen_high", "High pollen levels"),
    ("wildfire_warning", "Wildfires nearby"),
    ("earthquake_warning", "Earthquake nearby"),
    ("lightning_warning", "Active thunderstorms/lightning"),
    ("aurora_possible", "Aurora possible"),
    ("aurora_unlikely", "Aurora unlikely"),
    ("cme_warning", "Solar storm (CME) incoming"),
    ("radiation_warning", "Elevated radiation"),
    ("hf_radio_disruption", "HF radio may be disrupted"),
    ("gps_issues", "GPS accuracy reduced"),
    ("Clear", "Clear"),
    ("Partly cloudy", "Partly cloudy"),
    ("Overcast", "Overcast"),
    ("Rain", "Rain"),
    ("Snow", "Snow"),
    ("Thunderstorm", "Thunderstorm") ]

/-- The French table of `TRANSLATIONS` (partially translated). -/
def frTable : List (String × String) :=
  [ ("good_day", "Bonjour"),
    ("enjoy_day", "Bonne journée!"),
    ("Clear", "Dégagé"),
    ("Partly cloudy", "Partiellement nuageux"),
    ("Overcast", "Couvert"),
    ("good", "Bon") ]

/-- The Italian table of `TRANSLATIONS` (partially translated). -/
def itTable : List (String × String) :=
  [ ("good_day", "Buongiorno"),
    ("enjoy_day", "Buona giornata!"),
    ("Clear", "Sereno"),
    ("Partly cloudy", "Parzialmente nuvoloso"),
    ("good", "Buono") ]

/-- The `TRANSLATIONS` dictionary: language tag to per-language table. -/
def TRANSLATIONS : List (String × List (String × String)) :=
  [ ("de", deTable), ("en", enTable), ("fr", frTable), ("it", itTable) ]

/-- Embedding of `t(key, lang)`:
`TRANSLATIONS.get(lang, TRANSLATIONS["de"]).get(key, TRANSLATIONS["de"].get(key, key))`. -/
def t (key : String) (lang : String) : String :=
  match ((TRANSLATIONS.lookup lang).getD deTable).lookup key with
  | some v => v
  | none => (deTable.lookup key).getD key

/-! ### String helpers mirroring Python primitives -/

/-- Python `sep.join(parts)`. -/
def pyJoin (sep : String) : List String → String
  | [] => ""
  | [x] => x
  | x :: y :: ys => x ++ sep ++ pyJoin sep (y :: ys)

/-- Whether the first list is an initial segment of the second. -/
def leadsWith : List Char → List Char → Bool
  | [], _ => true
  | _ :: _, [] => false
  | a :: as, b :: bs => a == b && leadsWith as bs

/-- Whether `needle` occurs contiguously in the list. -/
def hasSub (needle : List Char) : List Char → Bool
  | [] => needle.isEmpty
  | b :: bs => leadsWith needle (b :: bs) || hasSub needle bs

/-- Python `needle in hay` on strings (contiguous substring test). -/
def pyIn (needle hay : String) : Bool :=
  hasSub needle.toList hay.toList

/-- Python `s.strip()`: drop surrounding whitespace characters. -/
def pyStrip (s : String) : String :=
  ⟨((s.data.dropWhile Char.isWhitespace).reverse.dropWhile
      Char.isWhitespace).reverse⟩

/-! ### Geo utility: `calculate_distance` (haversine), floats idealized as reals -/

/-- Python `math.atan2 y x`, as the argument of the complex number `x + y*I`. -/
noncomputable def atan2 (y x : ℝ) : ℝ := Complex.arg ⟨x, y⟩

/-- The haversine intermediate `a` computed by `calculate_distance`
after `math.radians` conversion of all four inputs. -/
noncomputable def havA (lat1 lon1 lat2 lon2 : ℝ) : ℝ :=
  Real.sin ((lat2 * Real.pi / 180 - lat1 * Real.pi / 180) / 2) ^ 2 +
    Real.cos (lat1 * Real.pi / 180) * Real.cos (lat2 * Real.pi / 180) *
      Real.sin ((lon2 * Real.pi / 180 - lon1 * Real.pi / 180) / 2) ^ 2

/-- Embedding of `calculate_distance(lat1, lon1, lat2, lon2)`:
`R * 2 * atan2(sqrt(a), sqrt(1-a))` with `R = 6371`. -/
noncomputable def calculate_distance (lat1 lon1 lat2 lon2 : ℝ) : ℝ :=
  6371 * 2 *
    atan2 (Real.sqrt (havA lat1 lon1 lat2 lon2))
      (Real.sqrt (1 - havA lat1 lon1 lat2 lon2))

/-! ### Remote generation cascade (`call_ai_api` in app.py) -/

/-- One endpoint configuration from the `models_to_try` list. -/
structure ModelCfg where
  model : String
  name : String
deriving DecidableEq

/-- The fixed ordered endpoint list `models_to_try` of `call_ai_api`. -/
def models_to_try : List ModelCfg :=
  [ ⟨"swiss-ai/Apertus-8B-Instruct-2509:publicai", "Apertus-8B (PublicAI)"⟩,
    ⟨"swiss-ai/Apertus-70B-Instruct-2509:publicai", "Apertus-70B (PublicAI)"⟩,
    ⟨"HuggingFaceH4/zephyr-7b-beta:hf-inference", "Zephyr-7B (HF Inference)"⟩,
    ⟨"mistralai/Mistral-7B-Instruct-v0.2:hf-inference", "Mistral-7B (HF Inference)"⟩ ]

/-- Outcome of one remote request: a transport failure or timeout (the
`except` branches of `call_ai_api`), or an HTTP response with a status code
and the extracted `choices[0].message.content` text if present. -/
inductive ApiResponse where
  | transportFail (msg : String)
  | http (status : Nat) (content : Option String)
deriving DecidableEq

/-- The success test of one cascade step: a 200 response whose extracted
text, once stripped, is truthy and longer than 20 characters yields that
stripped text (`text.strip()`; `if text and len(text) > 20`). -/
def extractUsable : ApiResponse → Option String
  | .transportFail _ => none
  | .http st c =>
    if st = 200 then
      match c with
      | some body =>
        if pyStrip body ≠ "" ∧ 20 < (pyStrip body).length then
          some (pyStrip body)
        else none
      | none => none
    else none

/-- The `for config in models_to_try` loop of `call_ai_api`: returns the
first usable text paired with the `name` of that endpoint (recorded as
`success_model`), plus the number of attempts made. -/
def runCascade : List (ModelCfg × ApiResponse) → Option (String × String) × Nat
  | [] => (none, 0)
  | (cfg, r) :: rest =>
    match extractUsable r with
    | some tx => (some (tx, cfg.name), 1)
    | none =>
      match runCascade rest with
      | (res, n) => (res, n + 1)

/-- Embedding of `call_ai_api`: with no `HF_API_KEY` it returns immediately
with no attempts; otherwise it runs the cascade over `models_to_try`, with
`responses` the oracle giving the network outcome of each endpoint. -/
def call_ai_api (key : Option String) (responses : List ApiResponse) :
    Option (String × String) × Nat :=
  match key with
  | none => (none, 0)
  | some _ => runCascade (models_to_try.zip responses)

/-! ### Per-domain results feeding the `/alert/` endpoint

Each adapter (`fetch_*` in app.py) returns a dictionary; the constructors
below are its possible shapes, one constructor per `status` value, carrying
exactly the fields that `get_alert` and `generate_smart_recommendation`
read.  The `err` constructors are the fixed error dictionaries the adapters
return when their upstream source is unavailable. -/

/-- `fetch_weather`: ok with current conditions, or `{"status": "error"}`. -/
inductive WeatherRes where
  | ok (temperature : Option ℚ) (weather : String)
  | err
deriving DecidableEq

/-- `fetch_air_quality`: ok with EU AQI and UV index (both defaulted to 0
by the adapter), or `{"status": "error"}`. -/
inductive AirRes where
  | ok (eu_aqi : ℚ) (uv_index : ℚ) (category : String) (uv_category : String)
  | err
deriving DecidableEq

/-- `fetch_pollen`: ok with the high-pollen type list, or error with an
empty `high_pollen` list. -/
inductive PollenRes where
  | ok (high_pollen : List String)
  | err
deriving DecidableEq

/-- `fetch_kp_index`: ok with the (possibly missing) Kp value, or
`{"value": None, "level": "Unknown", "status": "error"}`. -/
inductive KpRes where
  | ok (value : Option ℚ) (level : String)
  | err
deriving DecidableEq

/-- `fetch_xray_flux`: ok with flux and class string, or error. -/
inductive XrayRes where
  | ok (flux : ℚ) (level : String)
  | err
deriving DecidableEq

/-- `fetch_aurora_forecast`: ok with probability, or error (probability 0). -/
inductive AuroraRes where
  | ok (probability : ℚ) (visibility : String)
  | err
deriving DecidableEq

/-- `fetch_cme_events`: ok with count and the Earth-directed flag, or
`{"status": "error", "count": 0, "events": []}` (no `earth_directed` key). -/
inductive CmeRes where
  | ok (count : Nat) (earth_directed : Bool)
  | err
deriving DecidableEq

/-- `fetch_solar_flares` always reports `status: ok`; on upstream failure it
returns count 0 and no maximum class. -/
structure FlaresRes where
  count : Nat
  maxC : Option String
deriving DecidableEq

/-- `fetch_earthquakes_nearby`: ok with count and maximum magnitude, or
`{"status": "error", "count": 0, "earthquakes": []}` (no `max_magnitude`). -/
inductive EqRes where
  | ok (count : Nat) (max_magnitude : Option ℚ)
  | err
deriving DecidableEq

/-- `fetch_wildfires_nearby`: ok with a fire count, a fetch error, or the
`no_api_key` marker when `FIRMS_MAP_KEY` is absent (count 0 either way). -/
inductive FireRes where
  | ok (count : Nat)
  | err
  | noKey
deriving DecidableEq

/-- One GDACS alert as kept by `fetch_gdacs_alerts`. -/
structure GAlert where
  gtype : String
  name : String
  level : String
deriving DecidableEq

/-- `fetch_flood_risk`: ok with a risk category, error (risk "unknown"),
or `no_river` (risk "none"). -/
inductive FloodRes where
  | ok (risk : String)
  | err
  | noRiver
deriving DecidableEq

/-- The `data` dictionary assembled by the `/alert/` endpoint, restricted to
the domains its risk engine and the rule-based generator read.
`fetch_gdacs_alerts` reports `status: ok` in all cases, so the GDACS domain
is just its alert list. -/
structure Data where
  weather : WeatherRes
  air_quality : AirRes
  pollen : PollenRes
  kp : KpRes
  xray : XrayRes
  aurora : AuroraRes
  cme : CmeRes
  flares : FlaresRes
  earthquakes : EqRes
  wildfires : FireRes
  gdacs : List GAlert
  flood : FloodRes
deriving DecidableEq

/-- `data["weather"].get("temperature")`. -/
def weatherTemp (d : Data) : Option ℚ :=
  match d.weather with
  | .ok temp _ => temp
  | .err => none

/-- `data["weather"].get("weather", "")`. -/
def weatherCond (d : Data) : String :=
  match d.weather with
  | .ok _ w => w
  | .err => ""

/-- `data["air_quality"].get("eu_aqi", 0) or 0`. -/
def aqiVal (d : Data) : ℚ :=
  match d.air_quality with
  | .ok a _ _ _ => a
  | .err => 0

/-- `data["air_quality"].get("uv_index", 0) or 0`. -/
def uvVal (d : Data) : ℚ :=
  match d.air_quality with
  | .ok _ u _ _ => u
  | .err => 0

/-- `data["space"]["kp"].get("value", 0) or 0`: a missing or `None` value
reads as 0. -/
def kpVal (d : Data) : ℚ :=
  match d.kp with
  | .ok v _ => v.getD 0
  | .err => 0

/-- `data["wildfires"].get("count", 0)`. -/
def fireCount (d : Data) : Nat :=
  match d.wildfires with
  | .ok c => c
  | .err => 0
  | .noKey => 0

/-- `data["earthquakes"].get("max_magnitude")`. -/
def eqMax (d : Data) : Option ℚ :=
  match d.earthquakes with
  | .ok _ m => m
  | .err => none

/-- The `earth_directed` flag of the CME result, read as a Boolean
(a missing key is falsy). -/
def cmeDirected (d : Data) : Bool :=
  match d.cme with
  | .ok _ e => e
  | .err => false

/-- `data["flood"].get("risk")`. -/
def floodRisk (d : Data) : String :=
  match d.flood with
  | .ok r => r
  | .err => "unknown"
  | .noRiver => "none"

/-- `data["pollen"].get("high_pollen")`. -/
def pollenHigh (d : Data) : List String :=
  match d.pollen with
  | .ok hp => hp
  | .err => []

/-! ### Inline risk engine of `get_alert` -/

/-- Wildfire score delta: `count > 5` adds 4, `count > 0` adds 2. -/
def fireScore (c : Nat) : ℤ :=
  if c > 5 then 4 else if c > 0 then 2 else 0

/-- Wildfire factor strings: `f"🔥 {fire_count} wildfires nearby"`. -/
def fireFacts (c : Nat) : List String :=
  if c > 5 then ["🔥 " ++ toString c ++ " wildfires nearby"]
  else if c > 0 then ["🔥 " ++ toString c ++ " wildfires nearby"]
  else []

/-- Seismic score delta for a present magnitude:
`eq_max and eq_max >= 5` adds 3, `eq_max and eq_max >= 4` adds 1
(Python truthiness: `0.0` is falsy). -/
def seisScore (v : ℚ) : ℤ :=
  if v ≠ 0 ∧ v ≥ 5 then 3 else if v ≠ 0 ∧ v ≥ 4 then 1 else 0

/-- Seismic score delta (`None` magnitude is falsy and contributes 0). -/
def eqScore (m : Option ℚ) : ℤ :=
  match m with
  | none => 0
  | some v => seisScore v

/-- Seismic factor strings: `f"🌍 Earthquake M{eq_max}"`. -/
def eqFacts (m : Option ℚ) : List String :=
  match m with
  | none => []
  | some v =>
    if v ≠ 0 ∧ v ≥ 5 then ["🌍 Earthquake M" ++ toString v]
    else if v ≠ 0 ∧ v ≥ 4 then ["🌍 Earthquake M" ++ toString v]
    else []

/-- GDACS score delta: any Red alert adds 3, else any Orange adds 1. -/
def gdacsScore (alerts : List GAlert) : ℤ :=
  if alerts.filter (fun a => a.level == "Red") ≠ [] then 3
  else if alerts.filter (fun a => a.level == "Orange") ≠ [] then 1
  else 0

/-- GDACS factor strings: up to two entries naming the matching alerts. -/
def gdacsFacts (alerts : List GAlert) : List String :=
  if alerts.filter (fun a => a.level == "Red") ≠ [] then
    ((alerts.filter (fun a => a.level == "Red")).take 2).map
      (fun a => "🚨 " ++ a.gtype ++ ": " ++ a.name)
  else if alerts.filter (fun a => a.level == "Orange") ≠ [] then
    ((alerts.filter (fun a => a.level == "Orange")).take 2).map
      (fun a => "⚠️ " ++ a.gtype ++ ": " ++ a.name)
  else []

/-- Air-quality score delta: AQI over 100 adds 3, over 80 adds 2. -/
def aqiScore (a : ℚ) : ℤ :=
  if a > 100 then 3 else if a > 80 then 2 else 0

/-- Air-quality factor strings. -/
def aqiFacts (a : ℚ) : List String :=
  if a > 100 then ["😷 Hazardous air (AQI " ++ toString a ++ ")"]
  else if a > 80 then ["😷 Poor air (AQI " ++ toString a ++ ")"]
  else []

/-- UV score delta: index at least 11 adds 2, at least 8 adds 1. -/
def uvScore (u : ℚ) : ℤ :=
  if u ≥ 11 then 2 else if u ≥ 8 then 1 else 0

/-- UV factor strings. -/
def uvFacts (u : ℚ) : List String :=
  if u ≥ 11 then ["☀️ Extreme UV (" ++ toString u ++ ")"]
  else if u ≥ 8 then ["☀️ Very high UV (" ++ toString u ++ ")"]
  else []

/-- Geomagnetic score delta: Kp at least 8 adds 3, at least 7 adds 2. -/
def kpScore (k : ℚ) : ℤ :=
  if k ≥ 8 then 3 else if k ≥ 7 then 2 else 0

/-- Geomagnetic factor strings. -/
def kpFacts (k : ℚ) : List String :=
  if k ≥ 8 then ["🌞 Extreme storm (Kp=" ++ toString k ++ ")"]
  else if k ≥ 7 then ["🌞 Severe storm (Kp=" ++ toString k ++ ")"]
  else []

/-- Earth-directed CME adds 1. -/
def cmeScore (b : Bool) : ℤ := if b then 1 else 0

/-- CME factor string. -/
def cmeFacts (b : Bool) : List String :=
  if b then ["🌞 Earth-directed CME"] else []

/-- Flood score delta: risk category "high" adds 2. -/
def floodScore (r : String) : ℤ := if r = "high" then 2 else 0

/-- Flood factor string. -/
def floodFacts (r : String) : List String :=
  if r = "high" then ["🌊 High flood risk"] else []

/-- The severity mapping at the end of `get_alert`: score at least 5 is
Critical, at least 3 High, at least 2 Medium, else Low. -/
def risk_level (s : ℤ) : String :=
  if s ≥ 5 then "Critical"
  else if s ≥ 3 then "High"
  else if s ≥ 2 then "Medium"
  else "Low"

/-- The severity mapping as the specification words it.
Modelled from the spec for comparison with `risk_level`: total score at
least 8 is Critical, at least 5 High, at least 3 Medium, at least 1
Low-Medium, else Low. -/
def spec_severity (s : ℤ) : String :=
  if s ≥ 8 then "Critical"
  else if s ≥ 5 then "High"
  else if s ≥ 3 then "Medium"
  else if s ≥ 1 then "Low-Medium"
  else "Low"

/-- The risk assessment returned in the `/alert/` response. -/
structure Risk where
  level : String
  score : ℤ
  factors : List String
deriving DecidableEq

/-- The running total of the inline risk engine: the eight domain deltas
accumulated in source order (wildfires, earthquakes, GDACS, air quality,
UV, Kp, CME, flood). -/
def riskScoreOf (d : Data) : ℤ :=
  fireScore (fireCount d) + eqScore (eqMax d) + gdacsScore d.gdacs +
    aqiScore (aqiVal d) + uvScore (uvVal d) + kpScore (kpVal d) +
    cmeScore (cmeDirected d) + floodScore (floodRisk d)

/-- The accumulated factor list of the inline risk engine, in the same
source order. -/
def riskFactorsOf (d : Data) : List String :=
  fireFacts (fireCount d) ++ eqFacts (eqMax d) ++ gdacsFacts d.gdacs ++
    aqiFacts (aqiVal d) ++ uvFacts (uvVal d) ++ kpFacts (kpVal d) ++
    cmeFacts (cmeDirected d) ++ floodFacts (floodRisk d)

/-- The whole inline risk computation of `get_alert`: accumulate the domain
ladders and map the total through `risk_level`. -/
def riskOf (d : Data) : Risk :=
  ⟨risk_level (riskScoreOf d), riskScoreOf d, riskFactorsOf d⟩

/-! ### Rule-based fallback generator (`generate_smart_recommendation`)

The `/alert/` endpoint calls it without a user question, so the
keyword-matched question branch is dead on this path and is not embedded. -/

/-- The weather condition translated only when the own
table has it: `t(cond, language) if cond in TRANSLATIONS.get(language, {})
else cond`. -/
def translatedCond (language cond : String) : String :=
  match TRANSLATIONS.lookup language with
  | some tbl => if (tbl.lookup cond).isSome then t cond language else cond
  | none => cond

/-- Embedding of `generate_smart_recommendation(data, profile, language)`
with no question: greeting plus conditions, then warnings, then at most
three tips, then the closing phrase when no warning fired, joined by
single spaces. -/
def generate_smart_recommendation (d : Data) (profile language : String) : String :=
  let temp := weatherTemp d
  let uv := uvVal d
  let aqi := aqiVal d
  let kp := kpVal d
  let condT := translatedCond language (weatherCond d)
  let tempTips : List String :=
    match temp with
    | none => []
    | some tv =>
      if tv = 0 then []
      else if tv < 5 then ["🧥 " ++ t "warm_clothes" language]
      else if tv > 28 then ["💧 " ++ t "stay_hydrated" language]
      else []
  let uvWarn : List String :=
    if uv ≥ 8 then ["☀️ " ++ t "avoid_sun" language ++ " (UV " ++ toString uv ++ ")"]
    else []
  let uvTip : List String :=
    if uv ≥ 8 then []
    else if uv ≥ 3 then ["🧴 " ++ t "sunscreen_needed" language]
    else []
  let aqiWarn : List String :=
    if aqi > 80 then
      ["😷 " ++ t "air_quality" language ++ ": " ++ t "poor" language ++
        " (AQI " ++ toString aqi ++ ")"]
    else []
  let aqiTip : List String :=
    if aqi > 80 then []
    else if aqi ≤ 40 then ["✅ " ++ t "air_quality" language ++ ": " ++ t "good" language]
    else []
  let fireWarn : List String :=
    if fireCount d > 0 then
      ["🔥 " ++ t "wildfire_warning" language ++ " (" ++ toString (fireCount d) ++ ")"]
    else []
  let eqWarn : List String :=
    match eqMax d with
    | none => []
    | some m =>
      if m ≠ 0 ∧ m ≥ 4 then
        ["🌍 " ++ t "earthquake_warning" language ++ " (M" ++ toString m ++ ")"]
      else []
  let cmeWarn : List String :=
    if cmeDirected d then ["🌞 " ++ t "cme_warning" language] else []
  let pollenWarn : List String :=
    if pollenHigh d ≠ [] ∧ pyIn "Allergy" profile then
      ["🌸 " ++ t "pollen_high" language ++ ": " ++ pyJoin ", " (pollenHigh d)]
    else []
  let auroraTip : List String :=
    if pyIn "Aurora" profile then
      if kp ≥ 5 then ["🌌 " ++ t "aurora_possible" language ++ "! Kp=" ++ toString kp]
      else ["🌌 " ++ t "aurora_unlikely" language ++ " (Kp=" ++ toString kp ++ ")"]
    else []
  let warnings := uvWarn ++ aqiWarn ++ fireWarn ++ eqWarn ++ cmeWarn ++ pollenWarn
  let tips := tempTips ++ uvTip ++ aqiTip ++ auroraTip
  let weatherDesc :=
    match temp with
    | some tv => if tv ≠ 0 then condT ++ ", " ++ toString tv ++ "°C" else condT
    | none => condT
  let header := "🌤️ " ++ t "good_day" language ++ "! " ++ weatherDesc ++ "."
  let closing : List String := if warnings = [] then [t "enjoy_day" language] else []
  pyJoin " " ([header] ++ warnings ++ tips.take 3 ++ closing)

/-! ### The `/alert/` orchestrator (`get_alert` in app.py) -/

/-- The fields of the `/alert/` response that the checked properties
concern. -/
structure AlertResponse where
  status : String
  profile : String
  language : String
  recommendation : String
  ai_source : String
  risk : Risk
deriving DecidableEq

/-- Embedding of the `/alert/` endpoint: coerce the language, choose the
advisory (remote cascade when `HF_API_KEY` is set and an endpoint returns
usable text, rule-based fallback otherwise), run the inline risk engine,
and assemble the response.  `responses` is the network oracle for the
remote cascade; `d` carries the already-assembled adapter results. -/
def get_alert (hfKey : Option String) (responses : List ApiResponse)
    (d : Data) (profile language0 : String) : AlertResponse :=
  let language := if (TRANSLATIONS.lookup language0).isSome then language0 else "de"
  let ai :=
    match hfKey with
    | none => (generate_smart_recommendation d profile language, "rule-based")
    | some k =>
      match call_ai_api (some k) responses with
      | (some (tx, nm), _) => (tx, nm)
      | (none, _) => (generate_smart_recommendation d profile language, "rule-based")
  { status := "success"
    profile := profile
    language := language
    recommendation := ai.1
    ai_source := ai.2
    risk := riskOf d }

/-! ### The older orchestrator (`get_ai_alert` in main.py) -/

/-- Outcome of one `requests` call in main.py: the parsed payload, or the
exception raised by the transport or by `raise_for_status`. -/
inductive Fetch (α : Type) where
  | ok (v : α)
  | exn (msg : String)
deriving DecidableEq

/-- Embedding of `fetch_space_weather_data`: both NOAA and NASA requests
must succeed (their exceptions propagate to the caller); on success it
returns the latest Kp string and the GST alert summary. -/
def fetch_space_weather_data (kp : Fetch (List String)) (gst : Fetch (List ℚ)) :
    Fetch (String × String) :=
  match kp with
  | .exn m => .exn m
  | .ok rows =>
    match gst with
    | .exn m => .exn m
    | .ok alerts =>
      let latest := (rows.getLast?).getD "N/A"
      let summary :=
        match alerts with
        | [] => "No recent GST alerts."
        | a :: as =>
          "Geomagnetic Storm (GST) Alert. Max Kp observed: " ++
            toString (as.foldl max a)
      .ok (latest, summary)

/-- The successful response body of the `/alert/` route in main.py. -/
structure MainResp where
  kp_index : String
  alert_summary : String
  ai_result : String
deriving DecidableEq

/-- Embedding of `get_ai_alert` from main.py: a missing Apertus key raises
HTTP 503; a failed NOAA/NASA or Apertus request is caught and re-raised as
HTTP 500 with the `External data source error` detail. -/
def get_ai_alert (apertus_key : Option String) (kp : Fetch (List String))
    (gst : Fetch (List ℚ)) (apertus : Fetch String) : Except (Nat × String) MainResp :=
  match apertus_key with
  | none => .error (503, "Apertus service configuration error. Check API Key and URL.")
  | some _ =>
    match fetch_space_weather_data kp gst with
    | .exn m => .error (500, "External data source error: " ++ m)
    | .ok (k, s) =>
      match apertus with
      | .exn m => .error (500, "External data source error: " ++ m)
      | .ok body => .ok ⟨k, s, body⟩

/-! ### Orders and predicates used to state the claims -/

/-- Order on optional magnitudes: an absent value is below everything; a
present value only increases to a present larger value. -/
def optLe : Option ℚ → Option ℚ → Prop
  | none, _ => True
  | some _, none => False
  | some a, some b => a ≤ b

instance (a b : Option ℚ) : Decidable (optLe a b) :=
  match a, b with
  | none, _ => isTrue trivial
  | some _, none => isFalse (fun h => h)
  | some x, some y => inferInstanceAs (Decidable (x ≤ y))

/-- Severity rank of a GDACS alert level: Red above Orange above the rest. -/
def levelRank (l : String) : ℕ :=
  if l = "Red" then 2 else if l = "Orange" then 1 else 0

/-- Rank of a flood risk category as ordered by `fetch_flood_risk`. -/
def floodRank (r : String) : ℕ :=
  if r = "high" then 3 else if r = "moderate" then 2
  else if r = "low" then 1 else 0

/-- Pointwise domain-value order on assembled data: every triggering value
of `d₁` is at most the corresponding value of `d₂`, all other inputs to the
risk engine being equal in shape. -/
def DataLE (d₁ d₂ : Data) : Prop :=
  fireCount d₁ ≤ fireCount d₂ ∧
  optLe (eqMax d₁) (eqMax d₂) ∧
  List.Forall₂ (fun a b => levelRank a.level ≤ levelRank b.level) d₁.gdacs d₂.gdacs ∧
  aqiVal d₁ ≤ aqiVal d₂ ∧
  uvVal d₁ ≤ uvVal d₂ ∧
  kpVal d₁ ≤ kpVal d₂ ∧
  (cmeDirected d₁ = true → cmeDirected d₂ = true) ∧
  floodRank (floodRisk d₁) ≤ floodRank (floodRisk d₂)

/-- All upstream sources unavailable or errored: each domain result is the
value its adapter returns when its source fails (for GDACS and solar
flares the failure dictionaries still carry `status: ok`, with an empty
alert list, count 0 and no maximum class). -/
def allSourcesFailed (d : Data) : Prop :=
  d.weather = .err ∧ d.air_quality = .err ∧ d.pollen = .err ∧
  d.kp = .err ∧ d.xray = .err ∧ d.aurora = .err ∧ d.cme = .err ∧
  d.flares = ⟨0, none⟩ ∧ d.earthquakes = .err ∧
  (d.wildfires = .err ∨ d.wildfires = .noKey) ∧
  d.gdacs = [] ∧ (d.flood = .err ∨ d.flood = .noRiver)

instance (d : Data) : Decidable (allSourcesFailed d) := by
  unfold allSourcesFailed
  infer_instance

/-! ### Concrete data used by witnesses and counterexamples -/

/-- Data in which every upstream source failed. -/
def failedData : Data :=
  ⟨.err, .err, .err, .err, .err, .err, .err, ⟨0, none⟩, .err, .err, [], .err⟩

/-- Data scoring exactly 5: six wildfires (+4) and UV index 8 (+1). -/
def sev5Data : Data :=
  ⟨.err, .ok 0 8 "good" "Very High", .err, .err, .err, .err, .err,
    ⟨0, none⟩, .err, .ok 6, [], .err⟩

/-- Data whose only non-neutral reading is an X-class solar flare. -/
def xflareData : Data :=
  ⟨.err, .err, .err, .err, .ok (2 / 10000) "X2", .err, .err,
    ⟨3, some "X1"⟩, .err, .err, [], .err⟩

/-- Data with one nearby earthquake of magnitude 3. -/
def quakeLowData : Data :=
  ⟨.err, .err, .err, .err, .err, .err, .err, ⟨0, none⟩,
    .ok 1 (some 3), .err, [], .err⟩

/-- `quakeLowData` with the maximum magnitude raised to 6. -/
def quakeHighData : Data :=
  ⟨.err, .err, .err, .err, .err, .err, .err, ⟨0, none⟩,
    .ok 1 (some 6), .err, [], .err⟩

/-- A failed remote attempt: HTTP 500 with no extracted content. -/
def respBad : ApiResponse := .http 500 none

/-- A usable remote response: HTTP 200 with long-enough extracted text. -/
def respGood : ApiResponse :=
  .http 200 (some "Air quality is good today, enjoy your outdoor sports!")

/-! ### Helper lemmas -/

theorem lookup_mem {β : Type} (l : List (String × β)) (k : String) (v : β)
    (h : l.lookup k = some v) : (k, v) ∈ l := by
  induction l with
  | nil => simp [List.lookup] at h
  | cons p rest ih =>
    cases p with
    | mk pk pv =>
      rw [List.lookup] at h
      split at h
      · next heq =>
        simp at heq
        cases h
        subst heq
        exact List.mem_cons_self _ _
      · exact List.mem_cons_of_mem _ (ih h)

theorem deTable_vals_ne : ∀ p ∈ deTable, p.2 ≠ "" := by decide

theorem enTable_vals_ne : ∀ p ∈ enTable, p.2 ≠ "" := by decide

theorem frTable_vals_ne : ∀ p ∈ frTable, p.2 ≠ "" := by decide

theorem itTable_vals_ne : ∀ p ∈ itTable, p.2 ≠ "" := by decide

theorem translations_tables (lang : String) (tbl : List (String × String))
    (h : TRANSLATIONS.lookup lang = some tbl) :
    tbl = deTable ∨ tbl = enTable ∨ tbl = frTable ∨ tbl = itTable := by
  have hm := lookup_mem _ _ _ h
  simp only [TRANSLATIONS, List.mem_cons, List.not_mem_nil, or_false] at hm
  rcases hm with h1 | h1 | h1 | h1 <;>
    simp only [Prod.mk.injEq] at h1 <;> tauto

theorem string_ne_of_length_pos {s : String} (h : 0 < s.length) : s ≠ "" := by
  intro he
  subst he
  simp at h

theorem pyJoin_cons_length (x : String) (xs : List String) :
    x.length ≤ (pyJoin " " (x :: xs)).length := by
  cases xs with
  | nil => simp [pyJoin]
  | cons y ys =>
    show x.length ≤ (x ++ " " ++ pyJoin " " (y :: ys)).length
    rw [String.length_append, String.length_append]
    omega

theorem filter_ne_nil {p : GAlert → Bool} {l : List GAlert} :
    l.filter p ≠ [] ↔ ∃ a ∈ l, p a := by
  rw [ne_eq, List.filter_eq_nil_iff]
  push_neg
  simp

theorem forall2_mem_left {α β : Type} {R : α → β → Prop} {as : List α}
    {bs : List β} (h : List.Forall₂ R as bs) : ∀ a ∈ as, ∃ b ∈ bs, R a b := by
  induction h with
  | nil => intro a ha; simp at ha
  | cons hr ht ih =>
    intro a ha
    rcases List.mem_cons.mp ha with rfl | ha2
    · exact ⟨_, List.mem_cons_self _ _, hr⟩
    · obtain ⟨b, hb, hrb⟩ := ih a ha2
      exact ⟨b, List.mem_cons_of_mem _ hb, hrb⟩

theorem fireScore_mono {a b : Nat} (h : a ≤ b) : fireScore a ≤ fireScore b := by
  unfold fireScore
  split_ifs <;> omega

theorem seisScore_mono {a b : ℚ} (h : a ≤ b) : seisScore a ≤ seisScore b := by
  by_cases h5 : a ≠ 0 ∧ a ≥ 5
  · have hb5 : b ≠ 0 ∧ b ≥ 5 :=
      ⟨by intro h0; rw [h0] at h; linarith [h5.2], by linarith [h5.2]⟩
    simp only [seisScore, if_pos h5, if_pos hb5]
    norm_num
  · by_cases h4 : a ≠ 0 ∧ a ≥ 4
    · have hb4 : b ≠ 0 ∧ b ≥ 4 :=
        ⟨by intro h0; rw [h0] at h; linarith [h4.2], by linarith [h4.2]⟩
      simp only [seisScore, if_neg h5, if_pos h4]
      split_ifs <;> linarith
    · simp only [seisScore, if_neg h5, if_neg h4]
      split_ifs <;> linarith

theorem seisScore_nonneg (v : ℚ) : 0 ≤ seisScore v := by
  unfold seisScore
  split_ifs <;> norm_num

theorem eqScore_mono {a b : Option ℚ} (h : optLe a b) : eqScore a ≤ eqScore b := by
  cases a with
  | none =>
    cases b with
    | none => exact le_refl _
    | some v => exact seisScore_nonneg v
  | some va =>
    cases b with
    | none => exact absurd h (fun hh => hh)
    | some vb => exact seisScore_mono h

theorem levelRank_red {l : String} (h : 2 ≤ levelRank l) : l = "Red" := by
  unfold levelRank at h
  split_ifs at h with h1 h2
  · exact h1
  all_goals omega

theorem levelRank_orange {l : String} (h : 1 ≤ levelRank l) :
    l = "Red" ∨ l = "Orange" := by
  unfold levelRank at h
  split_ifs at h with h1 h2
  · exact Or.inl h1
  · exact Or.inr h2
  · omega

theorem gdacsScore_nonneg (l : List GAlert) : 0 ≤ gdacsScore l := by
  unfold gdacsScore
  split_ifs <;> norm_num

theorem gdacsScore_mono {as bs : List GAlert}
    (h : List.Forall₂ (fun a b => levelRank a.level ≤ levelRank b.level) as bs) :
    gdacsScore as ≤ gdacsScore bs := by
  by_cases hred : as.filter (fun a => a.level == "Red") ≠ []
  · obtain ⟨a, ha, hpa⟩ := filter_ne_nil.mp hred
    obtain ⟨b, hb, hrb⟩ := forall2_mem_left h a ha
    have hared : a.level = "Red" := by simpa using hpa
    have hbred : b.level = "Red" := by
      apply levelRank_red
      rw [hared] at hrb
      simpa [levelRank] using hrb
    have hbf : bs.filter (fun x => x.level == "Red") ≠ [] :=
      filter_ne_nil.mpr ⟨b, hb, by simp [hbred]⟩
    unfold gdacsScore
    rw [if_pos hred, if_pos hbf]
  · by_cases horange : as.filter (fun a => a.level == "Orange") ≠ []
    · obtain ⟨a, ha, hpa⟩ := filter_ne_nil.mp horange
      obtain ⟨b, hb, hrb⟩ := forall2_mem_left h a ha
      have haor : a.level = "Orange" := by simpa using hpa
      have hb1 : 1 ≤ levelRank b.level := by
        rw [haor] at hrb
        simpa [levelRank] using hrb
      have hlhs : gdacsScore as = 1 := by
        unfold gdacsScore
        rw [if_neg hred, if_pos horange]
      rw [hlhs]
      rcases levelRank_orange hb1 with hbr | hbo
      · have hbf : bs.filter (fun x => x.level == "Red") ≠ [] :=
          filter_ne_nil.mpr ⟨b, hb, by simp [hbr]⟩
        have hs3 : gdacsScore bs = 3 := by
          unfold gdacsScore
          rw [if_pos hbf]
        rw [hs3]
        norm_num
      · by_cases hbsr : bs.filter (fun x => x.level == "Red") ≠ []
        · have hs3 : gdacsScore bs = 3 := by
            unfold gdacsScore
            rw [if_pos hbsr]
          rw [hs3]
          norm_num
        · have hbof : bs.filter (fun x => x.level == "Orange") ≠ [] :=
            filter_ne_nil.mpr ⟨b, hb, by simp [hbo]⟩
          have hs1 : gdacsScore bs = 1 := by
            unfold gdacsScore
            rw [if_neg hbsr, if_pos hbof]
          rw [hs1]
    · have hlhs : gdacsScore as = 0 := by
        unfold gdacsScore
        rw [if_neg hred, if_neg horange]
      rw [hlhs]
      exact gdacsScore_nonneg bs

theorem aqiScore_mono {a b : ℚ} (h : a ≤ b) : aqiScore a ≤ aqiScore b := by
  unfold aqiScore
  split_ifs <;> linarith

theorem uvScore_mono {a b : ℚ} (h : a ≤ b) : uvScore a ≤ uvScore b := by
  unfold uvScore
  split_ifs <;> linarith

theorem kpScore_mono {a b : ℚ} (h : a ≤ b) : kpScore a ≤ kpScore b := by
  unfold kpScore
  split_ifs <;> linarith

theorem cmeScore_mono {a b : Bool} (h : a = true → b = true) :
    cmeScore a ≤ cmeScore b := by
  cases a with
  | false => cases b <;> simp [cmeScore]
  | true => rw [h rfl]

theorem floodScore_mono {a b : String} (h : floodRank a ≤ floodRank b) :
    floodScore a ≤ floodScore b := by
  by_cases h1 : a = "high"
  · have h2 : b = "high" := by
      unfold floodRank at h
      rw [if_pos h1] at h
      split_ifs at h with hb1 hb2 hb3
      · exact hb1
      all_goals omega
    simp [floodScore, h1, h2]
  · simp only [floodScore, if_neg h1]
    split_ifs <;> norm_num

theorem extractUsable_long {r : ApiResponse} {u : String}
    (h : extractUsable r = some u) : 20 < u.length := by
  cases r with
  | transportFail m => simp [extractUsable] at h
  | http st c =>
    cases c with
    | none => simp [extractUsable] at h
    | some body =>
      simp only [extractUsable] at h
      split_ifs at h with hst hcond
      cases h
      exact hcond.2

theorem extractUsable_200 (c : String) :
    extractUsable (.http 200 (some c)) =
      if pyStrip c ≠ "" ∧ 20 < (pyStrip c).length then some (pyStrip c)
      else none := rfl

theorem cascade_success_long {ps : List (ModelCfg × ApiResponse)}
    {tx nm : String} {n : Nat} (h : runCascade ps = (some (tx, nm), n)) :
    20 < tx.length := by
  induction ps generalizing n with
  | nil => simp [runCascade] at h
  | cons p rest ih =>
    cases p with
    | mk cfg r =>
      rw [runCascade] at h
      cases hx : extractUsable r with
      | some u =>
        rw [hx] at h
        cases h
        exact extractUsable_long hx
      | none =>
        rw [hx] at h
        cases hr : runCascade rest with
        | mk res m =>
          rw [hr] at h
          cases h
          exact ih hr

theorem gen_ne_empty (d : Data) (profile language : String) :
    generate_smart_recommendation d profile language ≠ "" := by
  simp only [generate_smart_recommendation, List.singleton_append]
  refine string_ne_of_length_pos (lt_of_lt_of_le ?_ (pyJoin_cons_length _ _))
  rw [String.length_append]
  have hdot : ("." : String).length = 1 := rfl
  rw [hdot]
  omega

/-! ### The claims -/

/-- C1 counterexample: in `main.py`, a single failed NOAA request surfaces
to the caller of the alert operation as an HTTP 500 request-level error,
not as a degraded response. -/
theorem c1_counterexample :
    get_ai_alert (some "key") (.exn "connection error") (.ok []) (.ok "ok")
      = .error (500, "External data source error: connection error") := rfl

/-- C1 (amended): the `/alert/` orchestrator of `app.py` is total over
adapter failures: for every remote-cascade outcome, every assembled data
(including all-sources-failed), and every profile and language, it returns
a complete response with status `success` and a non-empty recommendation;
the older `get_ai_alert` of `main.py` is the exception excluded by the
amendment. -/
theorem c1_total_alert (hfKey : Option String) (rs : List ApiResponse)
    (d : Data) (profile language : String) :
    (get_alert hfKey rs d profile language).status = "success" ∧
    (get_alert hfKey rs d profile language).recommendation ≠ "" := by
  constructor
  · rfl
  · cases hfKey with
    | none => exact gen_ne_empty d profile _
    | some k =>
      simp only [get_alert]
      cases hc : call_ai_api (some k) rs with
      | mk o n =>
        cases o with
        | none =>
          simp only [hc]
          exact gen_ne_empty d profile _
        | some pr =>
          cases pr with
          | mk tx nm =>
            simp only [hc]
            have h20 : 20 < tx.length := by
              have : runCascade (models_to_try.zip rs) = (some (tx, nm), n) := hc
              exact cascade_success_long this
            exact string_ne_of_length_pos (by omega)

/-- C1 witness: the amended totality at the all-failed data with no
remote key. -/
theorem c1_witness :
    (get_alert none [] failedData "General Public" "de").status = "success" ∧
    (get_alert none [] failedData "General Public" "de").recommendation ≠ "" :=
  c1_total_alert none [] failedData "General Public" "de"

/-- C2 counterexample: a snapshot scoring exactly 5 (six wildfires and UV
index 8) is mapped to severity Critical by the code, while the claimed
breakpoints would map score 5 to High (and the claimed Low-Medium tier
does not exist in the code). -/
theorem c2_counterexample :
    (riskOf sev5Data).score = 5 ∧ (riskOf sev5Data).level = "Critical" ∧
    spec_severity (riskOf sev5Data).score = "High" ∧
    (riskOf sev5Data).level ≠ spec_severity (riskOf sev5Data).score := by
  refine ⟨by decide, by decide, by decide, by decide⟩

/-- C2 (amended): the risk engine maps the accumulated total to severity
with the breakpoints actually in the code: score at least 5 is Critical,
at least 3 High, at least 2 Medium, and otherwise Low (there is no
Low-Medium tier). -/
theorem c2_severity_breakpoints (d : Data) :
    ((riskOf d).score ≥ 5 → (riskOf d).level = "Critical") ∧
    (3 ≤ (riskOf d).score ∧ (riskOf d).score < 5 → (riskOf d).level = "High") ∧
    (2 ≤ (riskOf d).score ∧ (riskOf d).score < 3 → (riskOf d).level = "Medium") ∧
    ((riskOf d).score < 2 → (riskOf d).level = "Low") := by
  have hl : (riskOf d).level = risk_level (riskOf d).score := rfl
  rw [hl]
  unfold risk_level
  refine ⟨?_, ?_, ?_, ?_⟩ <;> intro hs <;> split_ifs <;> first | rfl | omega

/-- C2 witness: the amended breakpoints at the concrete score-5 snapshot. -/
theorem c2_witness :
    (riskOf sev5Data).score ≥ 5 ∧ (riskOf sev5Data).level = "Critical" :=
  ⟨by decide, (c2_severity_breakpoints sev5Data).1 (by decide)⟩

/-- C3: the cascade tries the fixed ordered `models_to_try` list at most
once per endpoint and stops at the first endpoint with usable text: if the
responses before position `i` are unusable and the one at `i` is usable,
`call_ai_api` returns that text with the identifier of endpoint `i` as
provenance after exactly `i + 1` attempts, and no later endpoint is
invoked. -/
theorem c3_cascade_short_circuit (key : String) (rs : List ApiResponse)
    (i : Nat) (tx : String) (hi : i < 4) (hlen : rs.length = 4)
    (hpre : ∀ j, j < i → extractUsable (rs.getD j (.transportFail "x")) = none)
    (hs : extractUsable (rs.getD i (.transportFail "x")) = some tx) :
    call_ai_api (some key) rs =
      (some (tx, (models_to_try.getD i ⟨"", ""⟩).name), i + 1) ∧
    i + 1 ≤ models_to_try.length := by
  rcases rs with _ | ⟨r0, _ | ⟨r1, _ | ⟨r2, _ | ⟨r3, _ | rtail⟩⟩⟩⟩ <;> simp at hlen
  refine ⟨?_, by simp [models_to_try]; omega⟩
  interval_cases i
  · simp only [List.getD, List.get?, Option.getD] at hs
    simp [call_ai_api, runCascade, models_to_try, hs]
  · have h0 := hpre 0 (by omega)
    simp only [List.getD, List.get?, Option.getD] at hs h0
    simp [call_ai_api, runCascade, models_to_try, hs, h0]
  · have h0 := hpre 0 (by omega)
    have h1 := hpre 1 (by omega)
    simp only [List.getD, List.get?, Option.getD] at hs h0 h1
    simp [call_ai_api, runCascade, models_to_try, hs, h0, h1]
  · have h0 := hpre 0 (by omega)
    have h1 := hpre 1 (by omega)
    have h2 := hpre 2 (by omega)
    simp only [List.getD, List.get?, Option.getD] at hs h0 h1 h2
    simp [call_ai_api, runCascade, models_to_try, hs, h0, h1, h2]

/-- C3 witness: with the first endpoint failing and the second usable, the
cascade stops after two attempts and reports the second endpoint. -/
theorem c3_witness :
    extractUsable respBad = none ∧
    call_ai_api (some "key") [respBad, respGood, respBad, respBad] =
      (some ("Air quality is good today, enjoy your outdoor sports!",
        "Apertus-70B (PublicAI)"), 2) := by
  refine ⟨by decide, ?_⟩
  have h := c3_cascade_short_circuit "key" [respBad, respGood, respBad, respBad]
    1 "Air quality is good today, enjoy your outdoor sports!"
    (by omega) (by decide)
    (by intro j hj; interval_cases j; decide) (by decide)
  exact h.1

/-- C4: increasing the triggering value of any single domain (wildfire count, seismic
magnitude, GDACS alert ranks, AQI, UV, Kp, CME flag, flood-risk rank)
while holding the others fixed never decreases the total risk-engine
score. -/
theorem c4_monotonicity (d₁ d₂ : Data) (h : DataLE d₁ d₂) :
    (riskOf d₁).score ≤ (riskOf d₂).score := by
  obtain ⟨h1, h2, h3, h4, h5, h6, h7, h8⟩ := h
  have g1 := fireScore_mono h1
  have g2 := eqScore_mono h2
  have g3 := gdacsScore_mono h3
  have g4 := aqiScore_mono h4
  have g5 := uvScore_mono h5
  have g6 := kpScore_mono h6
  have g7 := cmeScore_mono h7
  have g8 := floodScore_mono h8
  show riskScoreOf d₁ ≤ riskScoreOf d₂
  unfold riskScoreOf
  linarith

/-- C4 witness: raising the seismic maximum magnitude from 3 to 6 with all
other domains fixed does not decrease the total score. -/
theorem c4_witness :
    DataLE quakeLowData quakeHighData ∧
    (riskOf quakeLowData).score ≤ (riskOf quakeHighData).score := by
  have hle : DataLE quakeLowData quakeHighData := by
    refine ⟨by decide, by decide, List.Forall₂.nil, by decide, by decide,
      by decide, fun h => h, by decide⟩
  exact ⟨hle, c4_monotonicity _ _ hle⟩

/-- C5: when every upstream source is unavailable or errored, the risk
engine returns severity Low, score 0, and an empty factor list. -/
theorem c5_all_failed_low (d : Data) (h : allSourcesFailed d) :
    riskOf d = ⟨"Low", 0, []⟩ := by
  obtain ⟨w, air, p, k, x, au, c, f, e, wf, g, fl⟩ := d
  obtain ⟨hw, ha, hp, hk, hx, hau, hc, hf, he, hwf, hg, hfl⟩ := h
  simp only at hw ha hp hk hx hau hc hf he hwf hg hfl
  subst hw ha hp hk hx hau hc hf he hg
  rcases hwf with hwf | hwf <;> rcases hfl with hfl | hfl <;>
    subst hwf hfl <;> rfl

/-- C5 witness: the all-failed data evaluates to Low, 0, no factors. -/
theorem c5_witness :
    allSourcesFailed failedData ∧ riskOf failedData = ⟨"Low", 0, []⟩ :=
  ⟨by decide, c5_all_failed_low failedData (by decide)⟩

/-- C6: with no remote credential configured, the `/alert/` advisory always
has provenance `rule-based` and non-empty text, for every assembled data,
profile, and language. -/
theorem c6_rule_based_nonempty (rs : List ApiResponse) (d : Data)
    (profile language : String) :
    (get_alert none rs d profile language).ai_source = "rule-based" ∧
    (get_alert none rs d profile language).recommendation ≠ "" :=
  ⟨rfl, gen_ne_empty d profile _⟩

/-- C6 witness: the rule-based provenance and non-empty text at the
all-failed data. -/
theorem c6_witness :
    (get_alert none [] failedData "Aurora Hunter" "en").ai_source = "rule-based" ∧
    (get_alert none [] failedData "Aurora Hunter" "en").recommendation ≠ "" :=
  c6_rule_based_nonempty [] failedData "Aurora Hunter" "en"

/-- C7 counterexample: a snapshot whose only non-neutral reading is an
X-class solar flare scores 0 with no factors; the claimed +3 X-ray
contribution does not exist in the code. -/
theorem c7_counterexample :
    (riskOf xflareData).score = 0 ∧ (riskOf xflareData).factors = [] := by
  refine ⟨by decide, by decide⟩

/-- C7 (amended): the risk engine of `get_alert` has no X-ray flare term at
all: the score and factors are invariant under arbitrary changes to the
X-ray flux result and the DONKI flare summary, so an X- or M-class flare
contributes 0 rather than +3 or +2. -/
theorem c7_xray_ignored (d : Data) (x : XrayRes) (f : FlaresRes) :
    riskOf { d with xray := x, flares := f } = riskOf d := rfl

/-- C8 counterexample: the localization lookup returns the empty string for
the empty key, so it does not satisfy "never returns an empty string" for
every key. -/
theorem c8_counterexample : t "" "de" = "" := rfl

/-- C8 (amended): the lookup is total: an unrecognized language falls back
to the German table; a key missing from the table of the recognized language
falls back to the German entry, then to the key itself; and the result is
never empty provided the key itself is non-empty. -/
theorem c8_lookup_total (lang key : String) :
    (TRANSLATIONS.lookup lang = none → t key lang = t key "de") ∧
    (∀ tbl, TRANSLATIONS.lookup lang = some tbl → tbl.lookup key = none →
      t key lang = (deTable.lookup key).getD key) ∧
    (key ≠ "" → t key lang ≠ "") := by
  refine ⟨?_, ?_, ?_⟩
  · intro h
    unfold t
    rw [h]
    rfl
  · intro tbl htbl hkey
    unfold t
    rw [htbl]
    simp only [Option.getD]
    rw [hkey]
  · intro hk
    unfold t
    cases hout : ((TRANSLATIONS.lookup lang).getD deTable).lookup key with
    | some v =>
      have hv : v ≠ "" := by
        cases hT : TRANSLATIONS.lookup lang with
        | none =>
          rw [hT] at hout
          simp only [Option.getD] at hout
          exact deTable_vals_ne _ (lookup_mem _ _ _ hout)
        | some tbl =>
          rw [hT] at hout
          simp only [Option.getD] at hout
          rcases translations_tables lang tbl hT with h | h | h | h <;>
            subst h
          · exact deTable_vals_ne _ (lookup_mem _ _ _ hout)
          · exact enTable_vals_ne _ (lookup_mem _ _ _ hout)
          · exact frTable_vals_ne _ (lookup_mem _ _ _ hout)
          · exact itTable_vals_ne _ (lookup_mem _ _ _ hout)
      exact hv
    | none =>
      cases hde : deTable.lookup key with
      | some v =>
        simp only [hde, Option.getD]
        exact deTable_vals_ne _ (lookup_mem _ _ _ hde)
      | none =>
        simp only [hde, Option.getD]
        exact hk

/-- C8 witness: an unrecognized language falls back to the default entry
for `enjoy_day`, which is non-empty. -/
theorem c8_witness :
    TRANSLATIONS.lookup "xx-unknown" = none ∧
    t "enjoy_day" "xx-unknown" = t "enjoy_day" "de" ∧
    t "enjoy_day" "xx-unknown" ≠ "" :=
  ⟨rfl, (c8_lookup_total "xx-unknown" "enjoy_day").1 rfl,
    (c8_lookup_total "xx-unknown" "enjoy_day").2.2 (by decide)⟩

/-- C9: the great-circle distance (floats idealized as reals) is symmetric
in its two coordinates, and the distance from a coordinate to itself is 0. -/
theorem c9_distance_symm_self :
    (∀ la1 lo1 la2 lo2 : ℝ,
      calculate_distance la1 lo1 la2 lo2 = calculate_distance la2 lo2 la1 lo1) ∧
    (∀ la lo : ℝ, calculate_distance la lo la lo = 0) := by
  have hsin : ∀ x y : ℝ, Real.sin ((x - y) / 2) ^ 2 = Real.sin ((y - x) / 2) ^ 2 := by
    intro x y
    have hxy : (x - y) / 2 = -((y - x) / 2) := by ring
    rw [hxy, Real.sin_neg, neg_sq]
  have hA : ∀ a b c d : ℝ, havA a b c d = havA c d a b := by
    intro a b c d
    unfold havA
    rw [hsin (c * Real.pi / 180) (a * Real.pi / 180),
      hsin (d * Real.pi / 180) (b * Real.pi / 180),
      mul_comm (Real.cos (a * Real.pi / 180)) (Real.cos (c * Real.pi / 180))]
  constructor
  · intro la1 lo1 la2 lo2
    unfold calculate_distance
    rw [hA]
  · intro la lo
    have hz : havA la lo la lo = 0 := by
      unfold havA
      simp
    unfold calculate_distance
    rw [hz, Real.sqrt_zero, sub_zero, Real.sqrt_one]
    have hone : atan2 0 1 = 0 := by
      unfold atan2
      have h1 : (⟨1, 0⟩ : ℂ) = 1 := by
        apply Complex.ext <;> simp
      rw [h1, Complex.arg_one]
    rw [hone, mul_zero]

/-- C10: the extracted text of a remote response is usable exactly when its
stripped form is non-empty and strictly longer than 20 characters; a 200
response at or below that threshold is recorded as a failed attempt and
the cascade proceeds to the next endpoint. -/
theorem c10_usable_threshold (content : String) (cfg : ModelCfg)
    (rest : List (ModelCfg × ApiResponse)) :
    ((extractUsable (.http 200 (some content))).isSome ↔
      (pyStrip content ≠ "" ∧ 20 < (pyStrip content).length)) ∧
    ((pyStrip content).length ≤ 20 →
      runCascade ((cfg, .http 200 (some content)) :: rest) =
        ((runCascade rest).1, (runCascade rest).2 + 1)) := by
  constructor
  · rw [extractUsable_200]
    split_ifs with hc
    · simpa using hc
    · simpa using hc
  · intro hlen
    have hnone : extractUsable (.http 200 (some content)) = none := by
      rw [extractUsable_200, if_neg]
      intro hcond
      exact absurd hcond.2 (by omega)
    rw [runCascade, hnone]

/-- C10 witness: a 9-character reply is rejected and the cascade moves on. -/
theorem c10_witness :
    (pyStrip "too short").length ≤ 20 ∧
    runCascade ((⟨"m", "M"⟩, ApiResponse.http 200 (some "too short")) :: []) =
      ((runCascade []).1, (runCascade []).2 + 1) :=
  ⟨by decide, (c10_usable_threshold "too short" ⟨"m", "M"⟩ []).2 (by decide)⟩

end App
